import Mathlib

/-!
Verification of the background-service core of the `plugin.video.viervijfzes`
Kodi add-on (`resources/lib/service.py`): the maintenance scheduler loop, the
TTL cache-eviction sweep, credential-change detection, and the playback
failure detector.  Machine integers are modelled as `Nat` with explicit
reduction modulo `2^32` / `2^64` where Python's `hashlib` works on fixed-width
words; time is modelled in integer seconds.
-/

/-! ### MD5 (embedding of `hashlib.md5(...).hexdigest()`)

`BackgroundService._has_credentials_changed` fingerprints the credentials
with `hashlib.md5((username + password).encode('utf-8')).hexdigest()`.
The digest is embedded executably below: UTF-8 encoding of the string,
RFC 1321 padding, and the 64-round compression function over 32-bit words
(`Nat` with masking to 32 bits). -/

/-- The 32-bit mask `0xffffffff`. -/
def mask32 : Nat := 0xffffffff

/-- Left-rotation of a 32-bit word by `s` bits. -/
def rotl32 (x s : Nat) : Nat := ((x <<< s) ||| (x >>> (32 - s))) &&& mask32

/-- The MD5 round constants `K[0..63]` (RFC 1321). -/
def md5K : List Nat :=
  [0xd76aa478, 0xe8c7b756, 0x242070db, 0xc1bdceee,
   0xf57c0faf, 0x4787c62a, 0xa8304613, 0xfd469501,
   0x698098d8, 0x8b44f7af, 0xffff5bb1, 0x895cd7be,
   0x6b901122, 0xfd987193, 0xa679438e, 0x49b40821,
   0xf61e2562, 0xc040b340, 0x265e5a51, 0xe9b6c7aa,
   0xd62f105d, 0x02441453, 0xd8a1e681, 0xe7d3fbc8,
   0x21e1cde6, 0xc33707d6, 0xf4d50d87, 0x455a14ed,
   0xa9e3e905, 0xfcefa3f8, 0x676f02d9, 0x8d2a4c8a,
   0xfffa3942, 0x8771f681, 0x6d9d6122, 0xfde5380c,
   0xa4beea44, 0x4bdecfa9, 0xf6bb4b60, 0xbebfbc70,
   0x289b7ec6, 0xeaa127fa, 0xd4ef3085, 0x04881d05,
   0xd9d4d039, 0xe6db99e5, 0x1fa27cf8, 0xc4ac5665,
   0xf4292244, 0x432aff97, 0xab9423a7, 0xfc93a039,
   0x655b59c3, 0x8f0ccc92, 0xffeff47d, 0x85845dd1,
   0x6fa87e4f, 0xfe2ce6e0, 0xa3014314, 0x4e0811a1,
   0xf7537e82, 0xbd3af235, 0x2ad7d2bb, 0xeb86d391]

/-- The MD5 per-round shift amounts `s[0..63]` (RFC 1321). -/
def md5S : List Nat :=
  [7, 12, 17, 22, 7, 12, 17, 22, 7, 12, 17, 22, 7, 12, 17, 22,
   5, 9, 14, 20, 5, 9, 14, 20, 5, 9, 14, 20, 5, 9, 14, 20,
   4, 11, 16, 23, 4, 11, 16, 23, 4, 11, 16, 23, 4, 11, 16, 23,
   6, 10, 15, 21, 6, 10, 15, 21, 6, 10, 15, 21, 6, 10, 15, 21]

/-- The MD5 nonlinear function for round `i` (F, G, H, I by 16-round group);
bitwise complement within 32 bits is xor with the mask. -/
def md5F (i b c d : Nat) : Nat :=
  if i < 16 then (b &&& c) ||| ((b ^^^ mask32) &&& d)
  else if i < 32 then (d &&& b) ||| ((d ^^^ mask32) &&& c)
  else if i < 48 then b ^^^ c ^^^ d
  else c ^^^ (b ||| (d ^^^ mask32))

/-- The message-word index used in round `i`. -/
def md5G (i : Nat) : Nat :=
  if i < 16 then i
  else if i < 32 then (5 * i + 1) % 16
  else if i < 48 then (3 * i + 5) % 16
  else (7 * i) % 16

/-- One MD5 round: state `(a, b, c, d)`, message words `M`, round index `i`. -/
def md5Round (M : List Nat) (st : Nat × Nat × Nat × Nat) (i : Nat) :
    Nat × Nat × Nat × Nat :=
  let f := (md5F i st.2.1 st.2.2.1 st.2.2.2 + st.1 + md5K.getD i 0
            + M.getD (md5G i) 0) &&& mask32
  (st.2.2.2, (st.2.1 + rotl32 f (md5S.getD i 0)) &&& mask32, st.2.1, st.2.2.1)

/-- Decode a 64-byte chunk into 16 little-endian 32-bit words. -/
def md5Words (chunk : List Nat) : List Nat :=
  (List.range 16).map (fun j =>
    chunk.getD (4 * j) 0 + 256 * chunk.getD (4 * j + 1) 0
      + 65536 * chunk.getD (4 * j + 2) 0 + 16777216 * chunk.getD (4 * j + 3) 0)

/-- Process one 64-byte chunk: 64 rounds, then add the old state words mod `2^32`. -/
def md5Block (a0 b0 c0 d0 : Nat) (chunk : List Nat) : Nat × Nat × Nat × Nat :=
  let M := md5Words chunk
  let r := (List.range 64).foldl (md5Round M) (a0, b0, c0, d0)
  ((a0 + r.1) &&& mask32, (b0 + r.2.1) &&& mask32,
   (c0 + r.2.2.1) &&& mask32, (d0 + r.2.2.2) &&& mask32)

/-- Process `n` consecutive 64-byte chunks of `bytes`. -/
def md5Chunks (n : Nat) (a b c d : Nat) (bytes : List Nat) : Nat × Nat × Nat × Nat :=
  match n with
  | 0 => (a, b, c, d)
  | n' + 1 =>
    let r := md5Block a b c d (bytes.take 64)
    md5Chunks n' r.1 r.2.1 r.2.2.1 r.2.2.2 (bytes.drop 64)

/-- RFC 1321 padding: append `0x80`, zero-pad to 56 mod 64, then the original
length in bits as a 64-bit little-endian quantity. -/
def md5Pad (msg : List Nat) : List Nat :=
  let L := msg.length
  let z := (120 - ((L + 1) % 64)) % 64
  let bitLen := (8 * L) % 18446744073709551616
  msg ++ 0x80 :: (List.replicate z 0
    ++ (List.range 8).map (fun j => (bitLen >>> (8 * j)) % 256))

/-- Lowercase hexadecimal digit for `n < 16`. -/
def hexDigitChar (n : Nat) : Char :=
  if n < 10 then Char.ofNat (48 + n) else Char.ofNat (87 + n)

/-- Two lowercase hex digits of a byte. -/
def byteToHex (b : Nat) : List Char := [hexDigitChar (b / 16), hexDigitChar (b % 16)]

/-- The four little-endian bytes of a 32-bit word. -/
def word32ToLEBytes (w : Nat) : List Nat :=
  [w % 256, (w >>> 8) % 256, (w >>> 16) % 256, (w >>> 24) % 256]

/-- `hashlib.md5(bytes).hexdigest()`: the 32-character lowercase hex digest of
a byte sequence. -/
def md5hex (msg : List Nat) : String :=
  let padded := md5Pad msg
  let r := md5Chunks (padded.length / 64) 0x67452301 0xefcdab89 0x98badcfe
    0x10325476 padded
  let digestBytes := word32ToLEBytes r.1 ++ word32ToLEBytes r.2.1
    ++ word32ToLEBytes r.2.2.1 ++ word32ToLEBytes r.2.2.2
  String.mk (digestBytes.foldr (fun b acc => byteToHex b ++ acc) [])

/-- UTF-8 encoding of a single character (`str.encode('utf-8')`, per scalar value). -/
def utf8Char (c : Char) : List Nat :=
  let n := c.toNat
  if n < 128 then [n]
  else if n < 2048 then [192 ||| (n >>> 6), 128 ||| (n &&& 63)]
  else if n < 65536 then
    [224 ||| (n >>> 12), 128 ||| ((n >>> 6) &&& 63), 128 ||| (n &&& 63)]
  else
    [240 ||| (n >>> 18), 128 ||| ((n >>> 12) &&& 63), 128 ||| ((n >>> 6) &&& 63),
     128 ||| (n &&& 63)]

/-- UTF-8 encoding of a string (`(username + password).encode('utf-8')`). -/
def utf8Bytes (s : String) : List Nat :=
  s.data.foldr (fun c acc => utf8Char c ++ acc) []

set_option maxRecDepth 10000 in
/-- Sanity check of the digest embedding against the RFC 1321 test vectors
for the empty message and `"abc"`. -/
theorem md5hex_test_vectors :
    md5hex (utf8Bytes "") = "d41d8cd98f00b204e9800998ecf8427e" ∧
    md5hex (utf8Bytes "abc") = "900150983cd24fb0d6963f7d28e17f72" := by
  constructor
  · decide
  · decide

/-! ### Settings store and credential fingerprinting -/

/-- Modelled from the spec: the external key-value settings store
(`kodiutils.get_setting` / `set_setting` / `get_setting_bool`, not under
`src/`), represented as a typed record of the keys the service uses:
`metadata_update` (bool), `metadata_last_updated` (int-as-string, here `Nat`),
`username`, `password`, `credentials_hash` (strings, possibly empty). -/
structure Settings where
  metadata_update : Bool
  metadata_last_updated : Nat
  username : String
  password : String
  credentials_hash : String
deriving DecidableEq

/-- The credential fingerprint of `BackgroundService._has_credentials_changed`
(`service.py` lines 57-60): the empty string when username and password are
both empty (Python string truthiness), otherwise
`hashlib.md5((username + password).encode('utf-8')).hexdigest()`. -/
def fingerprint (username password : String) : String :=
  if username ≠ "" ∨ password ≠ "" then md5hex (utf8Bytes (username ++ password))
  else ""

/-- `BackgroundService._has_credentials_changed` (`service.py` lines 54-64):
compare the fingerprint of the current credentials with the persisted
`credentials_hash`; when they differ, persist the new fingerprint and return
`true`, otherwise return `false`.  Returns the result together with the
settings state after the call. -/
def hasCredentialsChanged (s : Settings) : Bool × Settings :=
  let old_hash := s.credentials_hash
  let new_hash := fingerprint s.username s.password
  if new_hash ≠ old_hash then (true, { s with credentials_hash := new_hash })
  else (false, s)

/-! ### Cache store: `BackgroundService._remove_expired_metadata` -/

/-- A cache-directory entry as the sweep sees it: a filename, an mtime in
integer seconds, and whether `os.unlink` on it would raise (e.g. because the
file was removed concurrently between `os.listdir` and `os.unlink`). -/
structure FsEntry where
  name : String
  mtime : Nat
  unlinkFails : Bool
deriving DecidableEq

/-- The cache directory: whether `os.path.exists` holds for the path, and its
entries in `os.listdir` order. -/
structure CacheDir where
  dirExists : Bool
  entries : List FsEntry
deriving DecidableEq

/-- Python truthiness of the `keep_expired` argument (`None` or `0` are
falsy). -/
def keepExpiredTruthy : Option Nat → Bool
  | none => false
  | some k => decide (k ≠ 0)

/-- The entry loop of `_remove_expired_metadata` (`service.py` lines 91-96):
for each listed entry, skip it (keep) when
`keep_expired and os.stat(fullpath).st_mtime + keep_expired > now`, otherwise
`os.unlink` it; an unlink failure raises (`Except.error`), which abandons the
rest of the listing — the source has no handler around the loop body. -/
def sweepEntries (now : Nat) (keep_expired : Option Nat) :
    List FsEntry → Except String (List FsEntry)
  | [] => Except.ok []
  | e :: rest =>
    if keepExpiredTruthy keep_expired
        && decide (e.mtime + keep_expired.getD 0 > now) then
      match sweepEntries now keep_expired rest with
      | Except.ok kept => Except.ok (e :: kept)
      | Except.error msg => Except.error msg
    else if e.unlinkFails then Except.error (e.name ++ ": unlink failed")
    else sweepEntries now keep_expired rest

/-- `BackgroundService._remove_expired_metadata` (`service.py` lines 84-96):
return immediately when the cache path does not exist, otherwise run the
deletion loop over the directory listing.  `Except.ok` carries the directory
contents after the sweep; `Except.error` models an uncaught exception
propagating to the caller. -/
def removeExpiredMetadata (now : Nat) (keep_expired : Option Nat)
    (dir : CacheDir) : Except String CacheDir :=
  if dir.dirExists then
    match sweepEntries now keep_expired dir.entries with
    | Except.ok kept => Except.ok { dirExists := true, entries := kept }
    | Except.error msg => Except.error msg
  else Except.ok dir

/-! ### `BackgroundService._update_metadata` -/

/-- `BackgroundService._update_metadata` (`service.py` lines 66-82): sweep the
cache with a 30-day window at time `tSweep`, then run the metadata fetch;
`fetchSuccess` is the boolean returned by the external collaborator
`Metadata().fetch_metadata(callback=update_status)` (modelled from the spec:
it consults the cancellation callback and returns a success/failure result;
cancellation surfaces as `false`).  On success the setting
`metadata_last_updated` is persisted as `int(time())`, the time `tEnd` at the
end of the cycle; on failure the settings are untouched. -/
def updateMetadata (tSweep tEnd : Nat) (cache : CacheDir) (fetchSuccess : Bool)
    (s : Settings) : Except String (Settings × CacheDir) :=
  match removeExpiredMetadata tSweep (some (30 * 24 * 60 * 60)) cache with
  | Except.error msg => Except.error msg
  | Except.ok cache' =>
    Except.ok
      (if fetchSuccess then { s with metadata_last_updated := tEnd } else s,
       cache')

/-! ### `BackgroundService.run`: the maintenance loop

One loop iteration `i` of `run` (`service.py` lines 30-43) observes the abort
flag twice: `self.abortRequested()` at the top of the iteration (sequence
point `2*i`) and `self.waitForAbort(10)` at the bottom (sequence point
`2*i + 1`); a refresh, when due, starts between the two.  `timeAt i` is the
value of `time()` read at wake `i`, `enabledAt i` the `metadata_update`
setting read at wake `i`, and `_update_metadata` is represented by its effect
on the persisted `metadata_last_updated`: set to the wake time exactly when
the fetch succeeds (`fetchOk i`), as proved about `updateMetadata` above.
`fuel` bounds the number of iterations unrolled; the result is the list of
iterations at which a refresh started, and the sequence point at which the
loop exited (`none` when `fuel` ran out first). -/
def serviceRun (abortAt : Nat → Bool) (enabledAt : Nat → Bool) (interval : Nat)
    (timeAt : Nat → Nat) (fetchOk : Nat → Bool) :
    Nat → Nat → Nat → List Nat × Option Nat
  | 0, _, _ => ([], none)
  | fuel + 1, i, last_updated =>
    if abortAt (2 * i) then ([], some (2 * i))
    else
      let due := enabledAt i && decide (last_updated + interval < timeAt i)
      let last' := if due && fetchOk i then timeAt i else last_updated
      let fires : List Nat := if due then [i] else []
      if abortAt (2 * i + 1) then (fires, some (2 * i + 1))
      else
        let r := serviceRun abortAt enabledAt interval timeAt fetchOk fuel
          (i + 1) last'
        (fires ++ r.1, r.2)

/-! ### Playback failure detector: `KodiPlayer` -/

/-- The path prefix that marks a playback session as belonging to this
add-on (`service.py` line 113). -/
def addonSchemeStart : String := "plugin://plugin.video.viervijfzes/"

/-- Python's `str.startswith`: a character-wise prefix test (stated over the
character lists so that it evaluates in the kernel). -/
def pyStartsWith (s p : String) : Bool := decide (s.data.take p.data.length = p.data)

/-- The mutable `KodiPlayer` attributes (`service.py` lines 103-108):
`listen`, `path` (`None` initially), `av_started`, `stream_path`. -/
structure PlayerState where
  listen : Bool
  path : Option String
  av_started : Bool
  stream_path : Option String
deriving DecidableEq

/-- `KodiPlayer.__init__`: `listen = False`, `path = None`,
`av_started = False`, `stream_path = None`. -/
def initPlayer : PlayerState :=
  { listen := false, path := none, av_started := false, stream_path := none }

/-- The player lifecycle callbacks.  `playBackStarted` carries the values the
handler reads from its environment: `getInfoLabel('Player.FilenameAndPath')`
and `self.getPlayingFile()`. -/
inductive PlayerEvent where
  | playBackStarted (infoLabelPath : String) (playingFile : String)
  | avStarted
  | avChange
  | playBackSeek
  | playBackPaused
  | playBackResumed
  | playBackError
  | playBackStopped
  | playBackEnded
deriving DecidableEq

/-- One `KodiPlayer` callback (`service.py` lines 110-178), paired with the
number of stream-endpoint probes (`requests.get(self.stream_path)`) the
handler performs: `onPlayBackStarted` caches the path, sets `listen` from the
add-on scheme check and, for a relevant session, resets `av_started` and
records the playing file; `onAVStarted` sets `av_started` when listening;
`onPlayBackStopped` probes exactly when `listen` and not `av_started`; every
other handler only logs. -/
def stepPlayer (s : PlayerState) : PlayerEvent → PlayerState × Nat
  | PlayerEvent.playBackStarted infoLabelPath playingFile =>
    if pyStartsWith infoLabelPath addonSchemeStart then
      ({ listen := true, path := some infoLabelPath, av_started := false,
         stream_path := some playingFile }, 0)
    else
      ({ s with listen := false, path := some infoLabelPath }, 0)
  | PlayerEvent.avStarted =>
    if s.listen then ({ s with av_started := true }, 0) else (s, 0)
  | PlayerEvent.playBackStopped =>
    if s.listen && !s.av_started then (s, 1) else (s, 0)
  | _ => (s, 0)

/-- Total number of classification probes performed over an event trace. -/
def playerProbes (s : PlayerState) : List PlayerEvent → Nat
  | [] => 0
  | e :: rest =>
    let r := stepPlayer s e
    r.2 + playerProbes r.1 rest

/-- The outcome of `requests.get(self.stream_path)` in `onPlayBackStopped`:
either an HTTP response with a status code, or a raised connection error. -/
inductive ProbeResult where
  | status (code : Nat)
  | connError
deriving DecidableEq

/-- The probe-and-classify tail of `KodiPlayer.onPlayBackStopped`
(`service.py` lines 163-169): `requests.get` followed by
`message_id = 30720 if status == 403 else 30719` and the dialog.
`Except.ok` carries the message id shown to the user; `Except.error` models
the unhandled exception from `requests.get` propagating out of the handler —
the source wraps the call in no `try`/`except`, so no dialog is shown. -/
def stopProbeMessage : ProbeResult → Except String Nat
  | ProbeResult.connError => Except.error "requests.get raised ConnectionError"
  | ProbeResult.status code => Except.ok (if code = 403 then 30720 else 30719)

/-! ## Theorems -/

/-! ### Cache eviction: claims C1, C7, C10 -/

/-- With a truthy retention window `k` and no failing deletions, the sweep
loop keeps exactly the entries whose age `now - mtime` is strictly below `k`. -/
theorem sweepEntries_ok (now k : Nat) (hk : 0 < k) :
    ∀ entries : List FsEntry, (∀ e ∈ entries, e.unlinkFails = false) →
    sweepEntries now (some k) entries =
      Except.ok (entries.filter (fun e => decide (now - e.mtime < k))) := by
  intro entries
  induction entries with
  | nil => intro _; rfl
  | cons e rest ih =>
    intro h
    have he : e.unlinkFails = false := h e (List.mem_cons_self e rest)
    have hrest := ih (fun x hx => h x (List.mem_cons_of_mem e hx))
    simp only [sweepEntries, keepExpiredTruthy, Option.getD_some]
    by_cases hkeep : now - e.mtime < k
    · rw [if_pos (by simp only [Bool.and_eq_true, decide_eq_true_eq]; omega)]
      rw [hrest]
      simp [List.filter_cons, hkeep]
    · rw [if_neg (by simp only [Bool.and_eq_true, decide_eq_true_eq]; omega)]
      rw [if_neg (by simp [he]), hrest]
      simp [List.filter_cons, hkeep]

/-- Claim C1 (corrected): for every positive retention window `k` and every
listing of the existing cache directory with no failing deletions, the
eviction sweep keeps an entry iff its age `now - mtime` is STRICTLY below the
window and deletes it iff `now - mtime ≥ k`; in particular, at the exact
boundary `age = k` the entry is deleted, not kept (`service.py` line 94 keeps
on `st_mtime + keep_expired > now`, a strict comparison). -/
theorem c1_kept_iff (now k : Nat) (entries : List FsEntry) (hk : 0 < k)
    (hok : ∀ e ∈ entries, e.unlinkFails = false) :
    removeExpiredMetadata now (some k) { dirExists := true, entries := entries } =
      Except.ok
        { dirExists := true,
          entries := entries.filter (fun e => decide (now - e.mtime < k)) } := by
  simp only [removeExpiredMetadata, if_true]
  rw [sweepEntries_ok now k hk entries hok]

/-- Witness for C1: at `now = 2592001` with window `2592000`, the entry of age
`2592001` is evicted and the entry of age `2591999` is kept. -/
theorem c1_kept_iff_witness :
    removeExpiredMetadata 2592001 (some 2592000)
      { dirExists := true,
        entries := [{ name := "old", mtime := 0, unlinkFails := false },
                    { name := "fresh", mtime := 2, unlinkFails := false }] } =
      Except.ok
        { dirExists := true,
          entries := List.filter (fun e => decide (2592001 - e.mtime < 2592000))
            [{ name := "old", mtime := 0, unlinkFails := false },
             { name := "fresh", mtime := 2, unlinkFails := false }] } :=
  c1_kept_iff 2592001 2592000 _ (by decide) (by decide)

/-- Counterexample to C1 as stated: the spec's own scenario entry with
`mtime = now - 2592000` (age exactly equal to the 2592000-second window) is
claimed to be kept, but the sweep deletes it — the result directory is empty. -/
theorem c1_counterexample :
    removeExpiredMetadata 2592000 (some 2592000)
      { dirExists := true,
        entries := [{ name := "boundary", mtime := 0, unlinkFails := false }] } =
      Except.ok { dirExists := true, entries := [] } := rfl

/-- With a falsy `keep_expired` and no failing deletions, the sweep loop
deletes every listed entry. -/
theorem sweepEntries_falsy (now : Nat) (ke : Option Nat)
    (hke : keepExpiredTruthy ke = false) :
    ∀ entries : List FsEntry, (∀ e ∈ entries, e.unlinkFails = false) →
    sweepEntries now ke entries = Except.ok [] := by
  intro entries
  induction entries with
  | nil => intro _; rfl
  | cons e rest ih =>
    intro h
    have he : e.unlinkFails = false := h e (List.mem_cons_self e rest)
    have hrest := ih (fun x hx => h x (List.mem_cons_of_mem e hx))
    simp [sweepEntries, hke, he, hrest]

/-- Claim C10 (confirmed): called with a falsy retention argument — the
default `None` or `0` — the sweep skips the age check entirely (Python's
`if keep_expired and ...` short-circuits) and deletes every entry of the
cache directory regardless of age, assuming no deletion fails. -/
theorem c10_falsy_deletes_all (now : Nat) (entries : List FsEntry)
    (hok : ∀ e ∈ entries, e.unlinkFails = false) :
    removeExpiredMetadata now none { dirExists := true, entries := entries } =
      Except.ok { dirExists := true, entries := [] } ∧
    removeExpiredMetadata now (some 0) { dirExists := true, entries := entries } =
      Except.ok { dirExists := true, entries := [] } := by
  constructor
  · simp only [removeExpiredMetadata, if_true]
    rw [sweepEntries_falsy now none rfl entries hok]
  · simp only [removeExpiredMetadata, if_true]
    rw [sweepEntries_falsy now (some 0) (by decide) entries hok]

/-- Witness for C10: two arbitrarily young entries are both deleted under
`none` and under `some 0`. -/
theorem c10_falsy_deletes_all_witness :
    removeExpiredMetadata 100 none
      { dirExists := true,
        entries := [{ name := "a", mtime := 99, unlinkFails := false },
                    { name := "b", mtime := 100, unlinkFails := false }] } =
      Except.ok { dirExists := true, entries := [] } ∧
    removeExpiredMetadata 100 (some 0)
      { dirExists := true,
        entries := [{ name := "a", mtime := 99, unlinkFails := false },
                    { name := "b", mtime := 100, unlinkFails := false }] } =
      Except.ok { dirExists := true, entries := [] } :=
  c10_falsy_deletes_all 100 _ (by decide)

/-- Claim C7 (code bug): the missing-directory half of the claim holds — when
`os.path.exists` is false the sweep returns immediately — but the
never-raises half does not: `os.unlink` is not wrapped in any handler
(`service.py` line 96), so a deletion failure on one entry propagates to the
caller and aborts the sweep before the remaining entries ("stale" below, an
expired entry that is never deleted) are examined. -/
theorem c7_eval :
    removeExpiredMetadata 100 (some 10)
      { dirExists := false,
        entries := [{ name := "x", mtime := 0, unlinkFails := false }] } =
      Except.ok
        { dirExists := false,
          entries := [{ name := "x", mtime := 0, unlinkFails := false }] } ∧
    removeExpiredMetadata 100 (some 10)
      { dirExists := true,
        entries := [{ name := "gone", mtime := 0, unlinkFails := true },
                    { name := "stale", mtime := 50, unlinkFails := false }] } =
      Except.error "gone: unlink failed" := ⟨rfl, rfl⟩

/-! ### Refresh cycle: claim C3 -/

/-- Claim C3 (confirmed): whenever a refresh cycle completes (no exception
from the sweep), the settings after the cycle equal the old settings with
`metadata_last_updated` set to the cycle's end time when the fetch
collaborator returned success, and are completely unchanged when it returned
failure or was cancelled (`service.py` lines 80-82: the setting is written
only under `if success`). -/
theorem c3_last_updated (tS tE : Nat) (cache : CacheDir) (ok : Bool)
    (s s' : Settings) (c' : CacheDir)
    (h : updateMetadata tS tE cache ok s = Except.ok (s', c')) :
    s' = (if ok then { s with metadata_last_updated := tE } else s) := by
  unfold updateMetadata at h
  cases hr : removeExpiredMetadata tS (some (30 * 24 * 60 * 60)) cache with
  | error msg => rw [hr] at h; exact absurd h (by simp)
  | ok cc =>
    rw [hr] at h
    simp only [Except.ok.injEq, Prod.mk.injEq] at h
    exact h.1.symm

/-- Witness for C3: a concrete successful cycle persists the end time `9`,
and a concrete failed cycle leaves the settings untouched. -/
theorem c3_last_updated_witness :
    ({ metadata_update := true, metadata_last_updated := 9, username := "u",
       password := "p", credentials_hash := "h" } : Settings) =
      (if true then
        { ({ metadata_update := true, metadata_last_updated := 0, username := "u",
             password := "p", credentials_hash := "h" } : Settings)
          with metadata_last_updated := 9 }
       else
        { metadata_update := true, metadata_last_updated := 0, username := "u",
          password := "p", credentials_hash := "h" }) :=
  c3_last_updated 5 9 { dirExists := false, entries := [] } true
    { metadata_update := true, metadata_last_updated := 0, username := "u",
      password := "p", credentials_hash := "h" }
    { metadata_update := true, metadata_last_updated := 9, username := "u",
      password := "p", credentials_hash := "h" }
    { dirExists := false, entries := [] } rfl

/-! ### Credential guard: claims C5, C6 -/

/-- Branch-free characterization of `hasCredentialsChanged`. -/
theorem hasCredentialsChanged_eq (s : Settings) :
    hasCredentialsChanged s =
      if fingerprint s.username s.password = s.credentials_hash then (false, s)
      else (true, { s with credentials_hash := fingerprint s.username s.password }) := by
  show (if fingerprint s.username s.password ≠ s.credentials_hash then
      (true, { s with credentials_hash := fingerprint s.username s.password })
    else (false, s)) = _
  by_cases h : fingerprint s.username s.password = s.credentials_hash
  · rw [if_neg (fun hne => hne h), if_pos h]
  · rw [if_pos h, if_neg h]

/-- Claim C5 (confirmed): `_has_credentials_changed` returns `true` exactly
when the fingerprint of the current username/password (the empty string,
unhashed, when both are empty) differs from the persisted
`credentials_hash`; it always leaves the fingerprint of the current
credentials persisted and touches no other setting, so an immediately
repeated call with unchanged credentials returns `false`. -/
theorem c5_change_detection (s : Settings) :
    (hasCredentialsChanged s).1
        = decide (fingerprint s.username s.password ≠ s.credentials_hash) ∧
    (hasCredentialsChanged s).2.credentials_hash
        = fingerprint s.username s.password ∧
    (hasCredentialsChanged s).2.username = s.username ∧
    (hasCredentialsChanged s).2.password = s.password ∧
    (hasCredentialsChanged ((hasCredentialsChanged s).2)).1 = false := by
  by_cases h : fingerprint s.username s.password = s.credentials_hash
  · simp [hasCredentialsChanged_eq, h]
  · simp [hasCredentialsChanged_eq, h]

/-- The branch condition of `fingerprint` is equivalent to the concatenation
being nonempty. -/
theorem fingerprint_cond (a b : String) : (a ≠ "" ∨ b ≠ "") ↔ ¬a ++ b = "" := by
  constructor
  · intro h hab
    have hd : (a ++ b).data = a.data ++ b.data := String.data_append a b
    rw [hab] at hd
    rcases List.append_eq_nil.mp hd.symm with ⟨ha, hb⟩
    rcases h with h | h
    · exact h (String.ext ha)
    · exact h (String.ext hb)
  · intro h
    by_contra hc
    push_neg at hc
    rw [hc.1, hc.2] at h
    exact h rfl

/-- The fingerprint depends only on the concatenation `username ++ password`. -/
theorem fingerprint_eq_concat (a b : String) :
    fingerprint a b = if ¬a ++ b = "" then md5hex (utf8Bytes (a ++ b)) else "" := by
  unfold fingerprint
  exact if_congr (fingerprint_cond a b) rfl rfl

/-- Claim C6 (corrected, amended): fingerprints are equal whenever the
concatenations `username ++ password` are equal — equal credential pairs give
equal fingerprints, but distinct pairs with the same concatenation also do,
so fingerprint equality does not imply pair equality even without digest
collisions. -/
theorem c6_fingerprint_concat (u p u' p' : String) (h : u ++ p = u' ++ p') :
    fingerprint u p = fingerprint u' p' := by
  rw [fingerprint_eq_concat, fingerprint_eq_concat, h]

/-- Witness for C6 (amended): `("xy", "z")` and `("x", "yz")` concatenate
equally, hence fingerprint equally. -/
theorem c6_fingerprint_concat_witness : fingerprint "xy" "z" = fingerprint "x" "yz" :=
  c6_fingerprint_concat "xy" "z" "x" "yz" (by decide)

/-- Counterexample to C6 as stated: the credential pairs `("ab", "c")` and
`("a", "bc")` are distinct, yet their fingerprints coincide — both are the
MD5 digest of `"abc"` — which is a collision of the concatenation, not of
the digest. -/
theorem c6_counterexample :
    fingerprint "ab" "c" = fingerprint "a" "bc" ∧ ("ab", "c") ≠ ("a", "bc") := by
  refine ⟨?_, by decide⟩
  show (if ("ab" : String) ≠ "" ∨ ("c" : String) ≠ "" then
      md5hex (utf8Bytes ("ab" ++ "c")) else "")
    = (if ("a" : String) ≠ "" ∨ ("bc" : String) ≠ "" then
      md5hex (utf8Bytes ("a" ++ "bc")) else "")
  rw [if_pos (by left; decide), if_pos (by left; decide)]
  exact congrArg md5hex (congrArg utf8Bytes (by decide))

/-! ### Playback failure detector: claims C4, C8 -/

/-- Claim C4 (code bug): the classification itself matches the claim — HTTP
403 yields the "access forbidden" message id 30720 and any other status the
generic id 30719 — but a connection error raised by `requests.get` is NOT
classified: the call has no exception handler (`service.py` line 164), so the
error propagates out of `onPlayBackStopped` and the user receives no message
at all, contradicting "the probe never propagates an exception". -/
theorem c4_probe_eval :
    stopProbeMessage (ProbeResult.status 403) = Except.ok 30720 ∧
    stopProbeMessage (ProbeResult.status 500) = Except.ok 30719 ∧
    stopProbeMessage ProbeResult.connError
      = Except.error "requests.get raised ConnectionError" :=
  ⟨rfl, rfl, rfl⟩

/-- Claim C8 (confirmed): for every session whose info-label path is under
the add-on's `plugin://` scheme, the trace Start–Stop with no AVStarted in
between performs exactly one classification probe, and the trace
Start–AVStarted–Stop performs zero probes. -/
theorem c8_probe_counts (ip pf : String)
    (h : pyStartsWith ip addonSchemeStart = true) :
    playerProbes initPlayer
        [PlayerEvent.playBackStarted ip pf, PlayerEvent.playBackStopped] = 1 ∧
    playerProbes initPlayer
        [PlayerEvent.playBackStarted ip pf, PlayerEvent.avStarted,
         PlayerEvent.playBackStopped] = 0 := by
  constructor
  · simp [playerProbes, stepPlayer, h]
  · simp [playerProbes, stepPlayer, h]

/-- Witness for C8: a concrete relevant session path. -/
theorem c8_probe_counts_witness :
    playerProbes initPlayer
        [PlayerEvent.playBackStarted "plugin://plugin.video.viervijfzes/play/vtm/123"
           "https://cdn.example.com/master.m3u8",
         PlayerEvent.playBackStopped] = 1 ∧
    playerProbes initPlayer
        [PlayerEvent.playBackStarted "plugin://plugin.video.viervijfzes/play/vtm/123"
           "https://cdn.example.com/master.m3u8",
         PlayerEvent.avStarted, PlayerEvent.playBackStopped] = 0 :=
  c8_probe_counts "plugin://plugin.video.viervijfzes/play/vtm/123"
    "https://cdn.example.com/master.m3u8" (by decide)

/-! ### Maintenance scheduler: claims C2, C9 -/

/-- One-step unfolding of `serviceRun` with positive fuel. -/
theorem serviceRun_succ (abortAt enabledAt : Nat → Bool) (interval : Nat)
    (timeAt : Nat → Nat) (fetchOk : Nat → Bool) (fuel i last : Nat) :
    serviceRun abortAt enabledAt interval timeAt fetchOk (fuel + 1) i last =
      if abortAt (2 * i) then ([], some (2 * i))
      else
        let due := enabledAt i && decide (last + interval < timeAt i)
        let last' := if due && fetchOk i then timeAt i else last
        let fires : List Nat := if due then [i] else []
        if abortAt (2 * i + 1) then (fires, some (2 * i + 1))
        else
          let r := serviceRun abortAt enabledAt interval timeAt fetchOk fuel
            (i + 1) last'
          (fires ++ r.1, r.2) := rfl

/-- Helper for C2: starting at iteration `i` with persisted timestamp `t0`,
if every wake strictly before `i + n` reads a clock at or below
`t0 + interval` and wake `i + n` reads a clock strictly past it, then with no
abort the loop refreshes exactly once over those wakes, at wake `i + n`. -/
theorem serviceRun_first_due (interval t0 : Nat) (timeAt : Nat → Nat)
    (enabledAt fetchOk : Nat → Bool) (hen : ∀ j, enabledAt j = true) :
    ∀ n i, (∀ j, i ≤ j → j < i + n → timeAt j ≤ t0 + interval) →
    t0 + interval < timeAt (i + n) →
    serviceRun (fun _ => false) enabledAt interval timeAt fetchOk (n + 1) i t0
      = ([i + n], none) := by
  intro n
  induction n with
  | zero =>
    intro i _ hdue
    rw [Nat.add_zero] at hdue
    rw [serviceRun_succ]
    simp [serviceRun, hen, hdue]
  | succ n ih =>
    intro i hpre hdue
    have hi : timeAt i ≤ t0 + interval := hpre i (Nat.le_refl i) (by omega)
    have hrec := ih (i + 1) (fun j h1 h2 => hpre j (by omega) (by omega))
      (by rw [show i + 1 + n = i + (n + 1) by omega]; exact hdue)
    rw [serviceRun_succ]
    have hdui : (enabledAt i && decide (t0 + interval < timeAt i)) = false := by
      rw [hen i]
      simp only [Bool.true_and, decide_eq_false_iff_not]
      omega
    simp only [hdui, Bool.false_and, Bool.false_eq_true, if_false, hrec,
      List.nil_append]
    rw [show i + 1 + n = i + (n + 1) by omega]

/-- Claim C2 (corrected, amended): with the update flag on and no abort, no
wake whose clock is at or below `t0 + interval` starts a refresh — in
particular the boundary wake at exactly `t0 + interval` does NOT (the
condition at `service.py` line 35 is the strict
`int(last_updated) + update_interval < time()`) — and the first wake whose
clock is strictly past `t0 + interval` starts exactly one refresh. -/
theorem c2_first_eligible_wake (interval t0 k : Nat) (timeAt : Nat → Nat)
    (fetchOk : Nat → Bool)
    (hpre : ∀ j, j < k → timeAt j ≤ t0 + interval)
    (hk : t0 + interval < timeAt k) :
    serviceRun (fun _ => false) (fun _ => true) interval timeAt fetchOk (k + 1) 0 t0
      = ([k], none) := by
  have h := serviceRun_first_due interval t0 timeAt (fun _ => true) fetchOk
    (fun _ => rfl) k 0 (fun j _ hj => hpre j (by omega))
    (by rw [Nat.zero_add]; exact hk)
  rw [Nat.zero_add] at h
  exact h

/-- Witness for C2: wakes read clocks 100, 101, 102 against
`t0 + interval = 0 + 101`; the wakes at 100 and at the boundary 101 do not
refresh, the wake at 102 is the single refresh. -/
theorem c2_first_eligible_wake_witness :
    serviceRun (fun _ => false) (fun _ => true) 101 (fun j => 100 + j)
      (fun _ => true) 3 0 0 = ([2], none) :=
  c2_first_eligible_wake 101 0 2 (fun j => 100 + j) (fun _ => true)
    (by intro j hj; simp only; omega) (by simp only; omega)

/-- Counterexample to C2 as stated: a single wake whose clock reads exactly
`t0 + interval` (`t0 = 0`, `interval = 10`, `time() = 10`) starts no refresh
(the fires list is empty), although the claim includes the boundary wake
`= T0 + I` among the wakes that must start exactly one refresh. -/
theorem c2_counterexample :
    (serviceRun (fun _ => false) (fun _ => true) 10 (fun _ => 10) (fun _ => true)
      1 0 0).1 = [] := rfl

/-- Helper for C9: under a monotone abort flag raised at sequence point `m`,
any run with enough fuel exits at a sequence point at most `max m (2 * i)`,
and every refresh it started was started at a sequence point strictly before
`m`. -/
theorem serviceRun_abort_aux (abortAt enabledAt fetchOk : Nat → Bool)
    (interval m : Nat) (timeAt : Nat → Nat)
    (hmono : ∀ j j', j ≤ j' → abortAt j = true → abortAt j' = true)
    (hm : abortAt m = true) :
    ∀ fuel i last, 1 ≤ fuel → m < 2 * (i + fuel) →
    (∃ e, (serviceRun abortAt enabledAt interval timeAt fetchOk fuel i last).2
        = some e ∧ e ≤ max m (2 * i)) ∧
    ∀ r ∈ (serviceRun abortAt enabledAt interval timeAt fetchOk fuel i last).1,
      2 * r < m := by
  intro fuel
  induction fuel with
  | zero => intro i last h1 _; omega
  | succ fuel ih =>
    intro i last _ hlt
    by_cases ha : abortAt (2 * i) = true
    · refine ⟨⟨2 * i, ?_, le_max_right m (2 * i)⟩, ?_⟩
      · simp [serviceRun, ha]
      · intro r hr
        simp [serviceRun, ha] at hr
    · have h2i : 2 * i < m := by
        by_contra hc
        exact ha (hmono m (2 * i) (by omega) hm)
      have hfires : ∀ r ∈ (if (enabledAt i
            && decide (last + interval < timeAt i)) = true
          then ([i] : List Nat) else []), 2 * r < m := by
        intro r hr
        rcases Decidable.em ((enabledAt i
            && decide (last + interval < timeAt i)) = true) with hd | hd
        · rw [if_pos hd] at hr
          rcases List.mem_singleton.mp hr with rfl
          exact h2i
        · rw [if_neg hd] at hr
          exact absurd hr (List.not_mem_nil r)
      by_cases hb : abortAt (2 * i + 1) = true
      · refine ⟨⟨2 * i + 1, ?_, by omega⟩, ?_⟩
        · simp [serviceRun, ha, hb]
        · intro r hr
          simp only [serviceRun, ha, Bool.false_eq_true, if_false, hb,
            if_true] at hr
          rcases Decidable.em ((enabledAt i
              && decide (last + interval < timeAt i)) = true) with hd | hd
          · simp only [hd, if_true] at hr
            rcases List.mem_singleton.mp hr with rfl
            exact h2i
          · simp only [if_neg hd] at hr
            exact absurd hr (List.not_mem_nil r)
      · have hb2 : 2 * i + 1 < m := by
          by_contra hc
          exact hb (hmono m (2 * i + 1) (by omega) hm)
        have hfuel : 1 ≤ fuel := by omega
        have hrec := ih (i + 1)
          (if (enabledAt i && decide (last + interval < timeAt i)) && fetchOk i
            then timeAt i else last) hfuel (by omega)
        rcases hrec with ⟨⟨e, he, hle⟩, hall⟩
        refine ⟨⟨e, ?_, ?_⟩, ?_⟩
        · simp only [serviceRun, ha, Bool.false_eq_true, if_false, hb]
          exact he
        · have : max m (2 * (i + 1)) = m := by omega
          omega
        · intro r hr
          simp only [serviceRun, ha, Bool.false_eq_true, if_false, hb,
            List.mem_append] at hr
          rcases hr with hr | hr
          · exact hfires r hr
          · exact hall r hr

/-- Claim C9 (confirmed): if the abort signal is monotone (once raised it
stays raised) and is raised by sequence point `m`, then a run of the loop
with fuel `m + 1` exits at a sequence point no later than `m` — i.e. at the
very first abort check after the signal, within one wake-tick — and every
refresh cycle it started was started strictly before the signal was raised;
no refresh starts after the abort. -/
theorem c9_abort (abortAt enabledAt fetchOk : Nat → Bool) (interval m t0 : Nat)
    (timeAt : Nat → Nat)
    (hmono : ∀ j j', j ≤ j' → abortAt j = true → abortAt j' = true)
    (hm : abortAt m = true) :
    (∃ e, (serviceRun abortAt enabledAt interval timeAt fetchOk (m + 1) 0 t0).2
        = some e ∧ e ≤ m) ∧
    ∀ r ∈ (serviceRun abortAt enabledAt interval timeAt fetchOk (m + 1) 0 t0).1,
      2 * r < m := by
  have h := serviceRun_abort_aux abortAt enabledAt fetchOk interval m timeAt
    hmono hm (m + 1) 0 t0 (by omega) (by omega)
  rcases h with ⟨⟨e, he, hle⟩, hall⟩
  exact ⟨⟨e, he, by omega⟩, hall⟩

/-- Witness for C9: the abort flag rises at sequence point 3 (during the
second iteration); the loop exits at a point `≤ 3` and only the first
iteration's refresh, started at point 0, ever ran. -/
theorem c9_abort_witness :
    (∃ e, (serviceRun (fun j => decide (3 ≤ j)) (fun _ => true) 0
        (fun j => j + 1) (fun _ => true) 4 0 0).2 = some e ∧ e ≤ 3) ∧
    ∀ r ∈ (serviceRun (fun j => decide (3 ≤ j)) (fun _ => true) 0
        (fun j => j + 1) (fun _ => true) 4 0 0).1, 2 * r < 3 :=
  c9_abort (fun j => decide (3 ≤ j)) (fun _ => true) (fun _ => true) 0 3 0
    (fun j => j + 1)
    (fun j j' hjj hj => by
      simp only [decide_eq_true_eq] at hj ⊢
      omega)
    (by decide)
